import Mathlib

/-!
Verification of the failure-lifecycle state machine and retry-budget
coordinator of the pipeline-monitoring agent.

The definitions below are a shallow embedding of the Python source:

* `ContextStore` and its operations embed
  `monitoring_agent/context_store.py` (class `ContextStoreSQLite`); the
  SQLite table `pipeline_runs` becomes a partial map from `run_id` to a
  `RunRecord` whose nullable columns become `Option` fields.
* `pollStep` embeds the per-run classification body of
  `MonitoringAgent.poll` in `monitoring_agent/monitor.py`.
* `process_failure_step` embeds the per-failure body of
  `MonitoringAgent.process_failures` in `monitoring_agent/monitor.py`.
* `validate_decision` / `make_decision` embed the validation and retry
  loop of `DecisionLogicAgent.make_decision` in
  `decision_agent/decision_logic.py`.
* `execute_decision` embeds `TriggerAgent.execute_decision` in
  `trigger_agent/trigger_runner.py`.
* `process_decision_outcome` embeds
  `FeedbackAgent.process_decision_outcome` in
  `feedback_agent/feedback_loop.py`.

Python `None`/SQL `NULL` is `Option.none`; machine timestamps are an
abstract `Nat` parameter `now`; the configured `RETRY_THRESHOLD` is an
explicit `Int` parameter `T` (source default: 2).
-/

/-- One row of the `pipeline_runs` table.  Every column except the key
`run_id` is nullable in the schema, hence the `Option` fields. -/
structure RunRecord where
  pipeline_id : Option String
  retry_count : Option Int
  status : Option String
  last_updated : Nat
deriving DecidableEq

/-- The `pipeline_runs` table, keyed by `run_id`. -/
abbrev ContextStore := String → Option RunRecord

/-- Embeds `ContextStoreSQLite.create_or_update_run`: INSERT ... ON
CONFLICT DO UPDATE, fully overwriting every non-key column.  A `none`
`retry_count` argument is replaced by the threshold, as in the Python
`if retry_count is None: retry_count = RETRY_THRESHOLD`. -/
def create_or_update_run (T : Int) (store : ContextStore) (run_id : String)
    (pipeline_id : Option String) (status : String) (retry_count : Option Int)
    (now : Nat) : ContextStore :=
  let rc := retry_count.getD T
  fun s => if s = run_id then
      some { pipeline_id := pipeline_id, retry_count := some rc,
             status := some status, last_updated := now }
    else store s

/-- Embeds `ContextStoreSQLite.get_retry_count`:
`row[0] if row else RETRY_THRESHOLD`.  When the row exists its
`retry_count` column may be NULL, so the Python return value is an int
or `None`; we return `Option Int`, with `none` standing for `None`. -/
def get_retry_count (T : Int) (store : ContextStore) (run_id : String) :
    Option Int :=
  match store run_id with
  | some r => r.retry_count
  | none => some T

/-- Embeds `ContextStoreSQLite.set_retry_count`: a SQL UPDATE, so it is
a no-op when no row with this `run_id` exists. -/
def set_retry_count (store : ContextStore) (run_id : String) (count : Int)
    (now : Nat) : ContextStore :=
  fun s => if s = run_id then
      (store run_id).map
        (fun r => { r with retry_count := some count, last_updated := now })
    else store s

/-- Embeds `ContextStoreSQLite.update_status`: UPDATE of `status` and
`last_updated`; when `cur.rowcount == 0` it INSERTs a minimal row
carrying only `run_id`, `status` and the timestamp (the other columns
stay NULL). -/
def update_status (store : ContextStore) (run_id status : String)
    (now : Nat) : ContextStore :=
  fun s => if s = run_id then
      match store run_id with
      | some r => some { r with status := some status, last_updated := now }
      | none => some { pipeline_id := none, retry_count := none,
                       status := some status, last_updated := now }
    else store s

/-- Embeds `ContextStoreSQLite.get_status`: `row[0] if row else None`
(a row whose `status` column is NULL also yields `None`). -/
def get_status (store : ContextStore) (run_id : String) : Option String :=
  match store run_id with
  | some r => r.status
  | none => none

/-- C9: `update_status` on an existing record changes only the `status`
and `last_updated` fields, leaving `retry_count` and `pipeline_id`
unchanged; on a nonexistent `run_id` it does not fail but creates a
minimal record with only `run_id`, `status` and timestamp populated;
records of other run ids are untouched. -/
theorem update_status_frame (store : ContextStore) (run_id status : String)
    (now : Nat) :
    (∀ rec, store run_id = some rec →
      update_status store run_id status now run_id =
        some { pipeline_id := rec.pipeline_id, retry_count := rec.retry_count,
               status := some status, last_updated := now }) ∧
    (store run_id = none →
      update_status store run_id status now run_id =
        some { pipeline_id := none, retry_count := none,
               status := some status, last_updated := now }) ∧
    (∀ s, s ≠ run_id → update_status store run_id status now s = store s) := by
  refine ⟨?_, ?_, ?_⟩
  · intro rec hrec
    simp [update_status, hrec]
  · intro habs
    simp [update_status, habs]
  · intro s hs
    simp [update_status, hs]

/-- C9 witness: concrete instances of both branches of
`update_status_frame`. -/
theorem update_status_frame_witness :
    update_status (fun s => if s = "r1" then
        some { pipeline_id := some "p1", retry_count := some 2,
               status := some "unknown", last_updated := 0 }
      else none) "r1" "retrying" 5 "r1" =
      some { pipeline_id := some "p1", retry_count := some 2,
             status := some "retrying", last_updated := 5 } ∧
    update_status (fun _ => none) "r9" "failed_no_retry" 7 "r9" =
      some { pipeline_id := none, retry_count := none,
             status := some "failed_no_retry", last_updated := 7 } := by
  constructor
  · exact (update_status_frame (fun s => if s = "r1" then
        some { pipeline_id := some "p1", retry_count := some 2,
               status := some "unknown", last_updated := 0 }
      else none) "r1" "retrying" 5).1
      { pipeline_id := some "p1", retry_count := some 2,
        status := some "unknown", last_updated := 0 } (by decide)
  · exact (update_status_frame (fun _ => none) "r9" "failed_no_retry" 7).2.1
      (by decide)

/-- C10: a record created only by `update_status`'s upsert-on-miss path
has a NULL `retry_count` column, and `get_retry_count` then returns the
stored null (`none`), not an integer; the configured default threshold
is returned only when no record exists at all. -/
theorem get_retry_count_upsert_miss (T : Int) (store : ContextStore)
    (run_id status : String) (now : Nat) (h : store run_id = none) :
    get_retry_count T (update_status store run_id status now) run_id = none ∧
    get_retry_count T store run_id = some T := by
  constructor
  · simp [get_retry_count, update_status, h]
  · simp [get_retry_count, h]

/-- C10 witness: concrete instance of `get_retry_count_upsert_miss` at
threshold 2 on the empty store. -/
theorem get_retry_count_upsert_miss_witness :
    get_retry_count 2 (update_status (fun _ => none) "r5" "retrying" 3) "r5"
      = none ∧
    get_retry_count 2 (fun _ => none) "r5" = some 2 :=
  get_retry_count_upsert_miss 2 (fun _ => none) "r5" "retrying" 3 rfl

/-- One run summary returned by the platform's `queryPipelineRuns` API,
as read by `MonitoringAgent.poll`: `run.get("runId")`,
`run.get("pipelineName")`, `run.get("status", "Unknown")` and
`run.get("message", ...)`, each possibly absent. -/
structure PlatformRun where
  runId : Option String
  pipelineName : Option String
  status : Option String
  message : Option String
deriving DecidableEq

/-- The ephemeral failure context built by the Poller
(`shared/schemas.py`, dataclass `FailureContext`; the
`knowledge_text` field is filled in later and not needed here). -/
structure FailureContext where
  pipeline_name : Option String
  run_id : String
  status : String
  error_message : String
  failed_activity : Option String
  timestamp : Nat
deriving DecidableEq

/-- Python truthiness of `v or d` where `v` is an int or `None`:
both `None` and `0` are falsy and fall through to the default. -/
def orDefaultTruthy (v : Option Int) (d : Int) : Int :=
  match v with
  | none => d
  | some n => if n = 0 then d else n

/-- The terminal/in-flight statuses of the dedup check in
`MonitoringAgent.poll`:
`db_status in ["retrying", "succeeded", "failed_no_retry", "superseded"]`. -/
def isTerminalStatus (s : String) : Bool :=
  s == "retrying" || s == "succeeded" || s == "failed_no_retry" ||
    s == "superseded"

/-- The same membership test applied to a possibly-`None` stored status
(Python: `None in [...]` is false). -/
def dbStatusTerminal (db_status : Option String) : Bool :=
  match db_status with
  | some s => isTerminalStatus s
  | none => false

/-- Embeds the per-run classification body of `MonitoringAgent.poll`
(the `for run in runs` loop).  Returns the store after this run and the
`FailureContext` emitted for it, if any.  `failed_activity` stands for
the best-effort result of `get_failed_activity` (a network call). -/
def pollStep (T : Int) (store : ContextStore) (run : PlatformRun)
    (failed_activity : Option String) (now : Nat) :
    ContextStore × Option FailureContext :=
  match run.runId with
  | none => (store, none)
  | some run_id =>
    let status := run.status.getD "Unknown"
    if status = "Succeeded" then
      (create_or_update_run T store run_id run.pipelineName "Succeeded"
        (some T) now, none)
    else if status = "Failed" then
      if dbStatusTerminal (get_status store run_id) then (store, none)
      else if orDefaultTruthy (get_retry_count T store run_id) T < 1 then
        (store, none)
      else
        (store, some { pipeline_name := run.pipelineName, run_id := run_id,
                       status := status,
                       error_message := run.message.getD
                         "No error message available",
                       failed_activity := failed_activity, timestamp := now })
    else (store, none)

/-- C3: a run whose stored status is one of `retrying`, `succeeded`,
`failed_no_retry`, `superseded` and that is observed as `Failed` is
skipped by the Poller: the store is unchanged and no `FailureContext`
is emitted, so remediation never starts for it. -/
theorem poll_skips_terminal_status (T : Int) (store : ContextStore)
    (run : PlatformRun) (fa : Option String) (now : Nat) (run_id s : String)
    (hid : run.runId = some run_id) (hst : run.status = some "Failed")
    (hdb : get_status store run_id = some s)
    (hterm : isTerminalStatus s = true) :
    pollStep T store run fa now = (store, none) := by
  simp [pollStep, hid, hst, dbStatusTerminal, hdb, hterm]

/-- C3 witness: concrete instance of `poll_skips_terminal_status` for a
run stored as `retrying`. -/
theorem poll_skips_terminal_status_witness :
    pollStep 2 (fun s => if s = "R7" then
        some { pipeline_id := some "P7", retry_count := some 1,
               status := some "retrying", last_updated := 0 }
      else none)
      { runId := some "R7", pipelineName := some "P7",
        status := some "Failed", message := some "boom" } none 4 =
      ((fun s => if s = "R7" then
        some { pipeline_id := some "P7", retry_count := some 1,
               status := some "retrying", last_updated := 0 }
      else none), none) :=
  poll_skips_terminal_status 2 (fun s => if s = "R7" then
        some { pipeline_id := some "P7", retry_count := some 1,
               status := some "retrying", last_updated := 0 }
      else none)
    { runId := some "R7", pipelineName := some "P7",
      status := some "Failed", message := some "boom" } none 4 "R7"
    "retrying" rfl rfl (by decide) (by decide)

/-- A concrete store for the C1 failing input: run `R2` has exhausted
its budget (`retry_count = 0`) while its stored status
(`failed_rerun_error`) is outside the terminal skip set. -/
def storeC1 : ContextStore := fun s =>
  if s = "R2" then
    some { pipeline_id := some "P2", retry_count := some 0,
           status := some "failed_rerun_error", last_updated := 0 }
  else none

/-- C1 (code bug): a failed run with stored `retry_count = 0` is NOT
skipped by the Poller.  The budget check evaluates
`get_retry_count(run_id) or RETRY_THRESHOLD`, and Python's `or` treats
the integer `0` as falsy, so the stored `0` is replaced by the
threshold (2 here) and the check `< 1` fails; a `FailureContext` is
emitted and handed to remediation, contrary to the skip the code's own
log message (`"no retries left. Skipping"`) and the specification
describe. -/
theorem poll_zero_budget_not_skipped :
    (pollStep 2 storeC1
      { runId := some "R2", pipelineName := some "P2",
        status := some "Failed", message := some "boom" } none 6).2 =
      some { pipeline_name := some "P2", run_id := "R2", status := "Failed",
             error_message := "boom", failed_activity := none,
             timestamp := 6 } ∧
    get_retry_count 2 storeC1 "R2" = some 0 ∧
    orDefaultTruthy (some 0) 2 = 2 := by
  refine ⟨?_, ?_, ?_⟩ <;> decide

/-- C8 counterexample: the Poller's success path stores the platform's
status string `"Succeeded"` verbatim, not the lowercase `succeeded` of
the RunRecord status enum and of the dedup skip set, so the claim's
asserted post-state `{status: succeeded}` is false at this input (the
retry budget, by contrast, is indeed reset from 0 to the threshold). -/
theorem poll_succeeded_stores_capitalized :
    (pollStep 2 (fun s => if s = "R3" then
        some { pipeline_id := some "P3", retry_count := some 0,
               status := some "failed_no_retry", last_updated := 0 }
      else none)
      { runId := some "R3", pipelineName := some "P3",
        status := some "Succeeded", message := none } none 9).1 "R3" =
      some { pipeline_id := some "P3", retry_count := some 2,
             status := some "Succeeded", last_updated := 9 } ∧
    ("Succeeded" : String) ≠ "succeeded" ∧
    isTerminalStatus "Succeeded" = false := by
  refine ⟨?_, ?_, ?_⟩ <;> decide

/-- C8 (amended): for every run observed with platform status
`Succeeded`, the Poller fully overwrites that run's record via
`create_or_update_run` with `retry_count` equal to the default
threshold — replenishing even a previous budget of 0 — and with the
platform-cased status string `"Succeeded"` (not the lowercase
`succeeded` of the status enum); records of other runs are untouched
and no `FailureContext` is emitted. -/
theorem poll_succeeded_resets_record (T : Int) (store : ContextStore)
    (run : PlatformRun) (fa : Option String) (now : Nat) (run_id : String)
    (hid : run.runId = some run_id) (hst : run.status = some "Succeeded") :
    (pollStep T store run fa now).2 = none ∧
    (pollStep T store run fa now).1 run_id =
      some { pipeline_id := run.pipelineName, retry_count := some T,
             status := some "Succeeded", last_updated := now } ∧
    (∀ s, s ≠ run_id → (pollStep T store run fa now).1 s = store s) := by
  refine ⟨?_, ?_, ?_⟩
  · simp [pollStep, hid, hst]
  · simp [pollStep, hid, hst, create_or_update_run]
  · intro s hs
    simp [pollStep, hid, hst, create_or_update_run, hs]

/-- C8 witness: concrete instance of `poll_succeeded_resets_record`
replenishing a zero budget. -/
theorem poll_succeeded_resets_record_witness :
    (pollStep 2 (fun s => if s = "R8" then
        some { pipeline_id := some "P8", retry_count := some 0,
               status := some "unknown", last_updated := 1 }
      else none)
      { runId := some "R8", pipelineName := some "P8",
        status := some "Succeeded", message := none } none 3).1 "R8" =
      some { pipeline_id := some "P8", retry_count := some 2,
             status := some "Succeeded", last_updated := 3 } :=
  (poll_succeeded_resets_record 2 (fun s => if s = "R8" then
        some { pipeline_id := some "P8", retry_count := some 0,
               status := some "unknown", last_updated := 1 }
      else none)
    { runId := some "R8", pipelineName := some "P8",
      status := some "Succeeded", message := none } none 3 "R8" rfl rfl).2.1

/-- The JSON object parsed from one oracle response, viewed through the
only two keys the code reads: each field is `some v` when the key is
present (with value `v`) and `none` when absent. -/
structure JsonObj where
  action : Option String
  reason : Option String
deriving DecidableEq

/-- Outcome of one oracle invocation as observed by
`DecisionLogicAgent.make_decision`: either a parsed JSON object, or a
failure (`json.JSONDecodeError` or any other exception from the
transport). -/
inductive OracleResult where
  | ok (j : JsonObj)
  | malformed
deriving DecidableEq

/-- A decision as returned by `make_decision`: the `action` and
`reason` fields of the accepted JSON object. -/
structure DecisionD where
  action : String
  reason : String
deriving DecidableEq

/-- The validation step of `make_decision`:
`if "action" not in decision or "reason" not in decision: raise`.
Returns the decision when both keys are present and `none` (the raised
`ValueError`, caught by the retry loop) otherwise.  No check is made on
the value of `action`. -/
def validate_decision (o : JsonObj) : Option DecisionD :=
  match o.action, o.reason with
  | some a, some r => some { action := a, reason := r }
  | _, _ => none

/-- The synthetic fallback decision returned after all retries fail. -/
def fallback_decision : DecisionD :=
  { action := "no_rerun",
    reason := "Failed to parse LLM response or encountered repeated errors" }

/-- Accounting step of the retry loop: one more attempt was consumed,
and one `time.sleep(retry_delay)` happened iff another attempt remains
(`if attempt < max_retries` after the increment). -/
def bump (r : DecisionD × Nat × Nat) (sleep : Bool) : DecisionD × Nat × Nat :=
  (r.1, r.2.1 + 1, r.2.2 + if sleep then 1 else 0)

/-- Embeds the `while attempt < max_retries` loop of `make_decision`,
with `remaining = max_retries - attempt` fueling the recursion.  The
oracle (`self.chat.invoke` plus `json.loads`) is a function from the
attempt index to its observed outcome.  Returns the decision together
with the number of oracle invocations made and of sleeps taken. -/
def make_decision_from (oracle : Nat → OracleResult) :
    Nat → Nat → DecisionD × Nat × Nat
  | _, 0 => (fallback_decision, 0, 0)
  | attempt, Nat.succ remaining =>
    match oracle attempt with
    | .ok j =>
      match validate_decision j with
      | some d => (d, 1, 0)
      | none => bump (make_decision_from oracle (attempt + 1) remaining)
          (remaining != 0)
    | .malformed => bump (make_decision_from oracle (attempt + 1) remaining)
        (remaining != 0)

/-- Embeds `DecisionLogicAgent.make_decision` (source default
`max_retries=3`). -/
def make_decision (oracle : Nat → OracleResult)
    (max_retries : Nat := 3) : DecisionD × Nat × Nat :=
  make_decision_from oracle 0 max_retries

/-- C4 counterexample: an oracle JSON object whose `action` value is
outside the three known literals but which carries both keys is NOT
rejected: `make_decision` returns it unchanged on the first attempt
(one invocation, no retry, no fallback), contrary to the claim that
such an object triggers the retry path. -/
theorem make_decision_accepts_unknown_action :
    make_decision (fun _ =>
      .ok { action := some "banana", reason := some "why not" }) 3 =
      ({ action := "banana", reason := "why not" }, 1, 0) ∧
    ("banana" ∉ (["full_rerun", "partial_rerun", "no_rerun"] : List String)) := by
  constructor
  · rfl
  · decide

/-- C4 (amended): decision validation rejects (raises, entering the
retry path) every oracle JSON object missing the key `action` or the
key `reason`; but an object carrying both keys is accepted and returned
as the decision whatever its `action` value is — membership of `action`
in the three known literals is not checked. -/
theorem validate_decision_keys (o : JsonObj) :
    ((o.action = none ∨ o.reason = none) → validate_decision o = none) ∧
    (∀ a r, o.action = some a → o.reason = some r →
      validate_decision o = some { action := a, reason := r }) := by
  constructor
  · rintro (ha | hr)
    · simp [validate_decision, ha]
    · cases h : o.action <;> simp [validate_decision, h, hr]
  · intro a r ha hr
    simp [validate_decision, ha, hr]

/-- C4 witness: concrete instances of both parts of
`validate_decision_keys`: a missing `reason` key is rejected, and an
unknown `action` value with both keys present is accepted. -/
theorem validate_decision_keys_witness :
    validate_decision { action := some "full_rerun", reason := none } =
      none ∧
    validate_decision { action := some "weird", reason := some "r" } =
      some { action := "weird", reason := "r" } :=
  ⟨(validate_decision_keys
      { action := some "full_rerun", reason := none }).1 (Or.inr rfl),
   (validate_decision_keys
      { action := some "weird", reason := some "r" }).2 "weird" "r" rfl rfl⟩

/-- C6: when every oracle invocation yields a malformed or unparsable
response (transport failure, non-JSON text, or JSON missing a required
key), `make_decision` makes exactly 3 attempts with a sleep between
consecutive attempts (2 sleeps) and then returns the synthetic fallback
decision with action `no_rerun`; being a total function of the oracle's
outcomes, it returns this value rather than raising or propagating the
oracle error. -/
theorem make_decision_exhausts_to_fallback (oracle : Nat → OracleResult)
    (h : ∀ k, k < 3 → oracle k = .malformed ∨
      ∃ j, oracle k = .ok j ∧ validate_decision j = none) :
    make_decision oracle 3 = (fallback_decision, 3, 2) := by
  have step : ∀ k, k < 3 →
      (match oracle k with
       | .ok j => validate_decision j
       | .malformed => none) = none := by
    intro k hk
    rcases h k hk with hm | ⟨j, hj, hv⟩
    · simp [hm]
    · simp [hj, hv]
  have h0 := step 0 (by norm_num)
  have h1 := step 1 (by norm_num)
  have h2 := step 2 (by norm_num)
  unfold make_decision
  unfold make_decision_from
  revert h0
  cases ho0 : oracle 0 with
  | ok j0 =>
    intro h0
    simp only []
    unfold make_decision_from
    revert h1
    cases ho1 : oracle 1 with
    | ok j1 =>
      intro h1
      unfold make_decision_from
      revert h2
      cases ho2 : oracle 2 with
      | ok j2 =>
        intro h2
        simp_all [make_decision_from, bump]
      | malformed =>
        intro h2
        simp_all [make_decision_from, bump]
    | malformed =>
      intro h1
      unfold make_decision_from
      revert h2
      cases ho2 : oracle 2 with
      | ok j2 =>
        intro h2
        simp_all [make_decision_from, bump]
      | malformed =>
        intro h2
        simp_all [make_decision_from, bump]
  | malformed =>
    intro h0
    unfold make_decision_from
    revert h1
    cases ho1 : oracle 1 with
    | ok j1 =>
      intro h1
      unfold make_decision_from
      revert h2
      cases ho2 : oracle 2 with
      | ok j2 =>
        intro h2
        simp_all [make_decision_from, bump]
      | malformed =>
        intro h2
        simp_all [make_decision_from, bump]
    | malformed =>
      intro h1
      unfold make_decision_from
      revert h2
      cases ho2 : oracle 2 with
      | ok j2 =>
        intro h2
        simp_all [make_decision_from, bump]
      | malformed =>
        intro h2
        simp_all [make_decision_from, bump]

/-- C6 witness: concrete instance of `make_decision_exhausts_to_fallback`
for an oracle that is malformed on every attempt. -/
theorem make_decision_exhausts_to_fallback_witness :
    make_decision (fun _ => .malformed) 3 = (fallback_decision, 3, 2) :=
  make_decision_exhausts_to_fallback (fun _ => .malformed)
    (fun _ _ => Or.inl rfl)

/-- The rerun request body built by `TriggerAgent.execute_decision`:
`referencePipelineRunId`, `isRecovery`, and for a recovery run either
`startActivityName` (when the failed activity is known) or
`startFromFailure` (otherwise). -/
structure TriggerRequest where
  referencePipelineRunId : String
  isRecovery : Bool
  startActivityName : Option String
  startFromFailure : Bool
deriving DecidableEq

/-- Observable outcome of the `createRun` call in `execute_decision`:
the platform accepted the request (HTTP 200/201/202, body carrying an
optional `runId`), rejected it (any other status), the transport
raised, or token acquisition already failed. -/
inductive PlatformResponse where
  | accepted (new_run_id : Option String)
  | rejected
  | transportError
  | tokenError
deriving DecidableEq

/-- Embeds `TriggerAgent.execute_decision`.  Returns the store after the
call, the list of trigger requests issued (the source performs at most
one POST, with no in-cycle retry), and the Python return value of the
function — which is `None` on every path: the new run id is only read
into a local and logged, never returned. -/
def execute_decision (store : ContextStore) (action : String)
    (run_id : String) (failed_activity : Option String)
    (resp : PlatformResponse) (now : Nat) :
    ContextStore × List TriggerRequest × Option String :=
  if action = "no_rerun" then
    (update_status store run_id "failed_no_retry" now, [], none)
  else
    let is_recovery := action == "partial_rerun"
    let req : TriggerRequest :=
      { referencePipelineRunId := run_id
        isRecovery := is_recovery
        startActivityName :=
          if is_recovery then failed_activity else none
        startFromFailure := is_recovery && failed_activity.isNone }
    match resp with
    | .tokenError => (store, [], none)
    | .accepted _ => (update_status store run_id "retrying" now, [req], none)
    | .rejected =>
        (update_status store run_id "failed_rerun_error" now, [req], none)
    | .transportError =>
        (update_status store run_id "failed_rerun_exception" now, [req], none)

/-- C7 counterexample: on a `full_rerun` decision that the platform
accepts with new run id `NEW-RUN`, `execute_decision` sets the stored
status to `retrying` but returns `None`, not the new run identifier —
the id is only logged, so the claimed return value is false at this
input. -/
theorem execute_decision_returns_none :
    (execute_decision (fun _ => none) "full_rerun" "R1" none
      (.accepted (some "NEW-RUN")) 4).2.2 = none ∧
    get_status (execute_decision (fun _ => none) "full_rerun" "R1" none
      (.accepted (some "NEW-RUN")) 4).1 "R1" = some "retrying" ∧
    (none : Option String) ≠ some "NEW-RUN" := by
  refine ⟨?_, ?_, ?_⟩ <;> decide

/-- C7 (amended): for a `full_rerun` or `partial_rerun` decision,
`execute_decision` sets the stored status to `retrying` when the
platform accepts the trigger request, to `failed_rerun_error` when the
platform rejects it, and to `failed_rerun_exception` when the transport
raises; in every case it issues at most one trigger request (no
in-cycle retry of the trigger call) and returns `None` — also in the
acceptance case, where the new run identifier is only logged. -/
theorem execute_decision_statuses (store : ContextStore) (action : String)
    (run_id : String) (fa : Option String) (now : Nat) (nid : Option String)
    (ha : action = "full_rerun" ∨ action = "partial_rerun") :
    get_status (execute_decision store action run_id fa
      (.accepted nid) now).1 run_id = some "retrying" ∧
    get_status (execute_decision store action run_id fa
      .rejected now).1 run_id = some "failed_rerun_error" ∧
    get_status (execute_decision store action run_id fa
      .transportError now).1 run_id = some "failed_rerun_exception" ∧
    (∀ resp, (execute_decision store action run_id fa resp now).2.2 = none ∧
      (execute_decision store action run_id fa resp now).2.1.length ≤ 1) := by
  have hne : ¬ action = "no_rerun" := by
    rcases ha with h | h <;> simp [h]
  refine ⟨?_, ?_, ?_, ?_⟩
  · cases h : store run_id <;>
      simp [execute_decision, hne, get_status, update_status, h]
  · cases h : store run_id <;>
      simp [execute_decision, hne, get_status, update_status, h]
  · cases h : store run_id <;>
      simp [execute_decision, hne, get_status, update_status, h]
  · intro resp
    cases resp <;> simp [execute_decision, hne]

/-- C7 witness: concrete instance of `execute_decision_statuses` for a
`partial_rerun` decision. -/
theorem execute_decision_statuses_witness :
    get_status (execute_decision (fun _ => none) "partial_rerun" "R6"
      (some "CopyData") (.accepted none) 8).1 "R6" = some "retrying" ∧
    get_status (execute_decision (fun _ => none) "partial_rerun" "R6"
      (some "CopyData") .rejected 8).1 "R6" = some "failed_rerun_error" ∧
    get_status (execute_decision (fun _ => none) "partial_rerun" "R6"
      (some "CopyData") .transportError 8).1 "R6" =
      some "failed_rerun_exception" ∧
    (∀ resp, (execute_decision (fun _ => none) "partial_rerun" "R6"
        (some "CopyData") resp 8).2.2 = none ∧
      (execute_decision (fun _ => none) "partial_rerun" "R6"
        (some "CopyData") resp 8).2.1.length ≤ 1) :=
  execute_decision_statuses (fun _ => none) "partial_rerun" "R6"
    (some "CopyData") 8 none (Or.inr rfl)

/-- Embeds `FeedbackAgent.ask_user_confirmation`: the source sends an
e-mail and then unconditionally returns `True` (simulated approval). -/
def ask_user_confirmation : Bool := true

/-- Embeds `FeedbackAgent.process_decision_outcome`.  Returns `some`
of the store after the transition together with the number of
escalation alerts dispatched via `send_alert` (delivery further
requires configured recipients), or `none` for the path where the
Python raises: a NULL stored `retry_count` reaches `retry_count > 0`
and `None > 0` is a `TypeError`. -/
def process_decision_outcome (T : Int) (store : ContextStore)
    (run_id : String) (action : String) (now : Nat) :
    Option (ContextStore × Nat) :=
  let retry_count := get_retry_count T store run_id
  if action = "full_rerun" ∨ action = "partial_rerun" then
    if retry_count = some T then
      if ask_user_confirmation then
        some (update_status (set_retry_count store run_id (T - 1) now)
          run_id "retrying" now, 0)
      else
        some (update_status (set_retry_count store run_id 0 now)
          run_id "failed_no_retry" now, 1)
    else
      match retry_count with
      | some n =>
        if n > 0 then
          some (update_status (set_retry_count store run_id (n - 1) now)
            run_id "retrying" now, 0)
        else
          some (update_status store run_id "failed_no_retry" now, 1)
      | none => none
  else if action = "no_rerun" then
    some (update_status (set_retry_count store run_id 0 now)
      run_id "failed_no_retry" now, 1)
  else if action = "success" then
    some (update_status (set_retry_count store run_id T now)
      run_id "succeeded" now, 0)
  else
    some (store, 0)

/-- C5: the Remediation Coordinator's transition function.  On a
`full_rerun` or `partial_rerun` decision it maps a run with
`0 < retry_count < threshold` to `retry_count - 1` with status
`retrying`, and a run with `retry_count = 0` to an unchanged 0 with
status `failed_no_retry` and one escalation alert; on `no_rerun` it
sets `retry_count` to 0 and status `failed_no_retry` (one alert); on
the feedback-only `success` it resets `retry_count` to the threshold
with status `succeeded`. -/
theorem process_decision_outcome_transitions (T : Int) (store : ContextStore)
    (run_id : String) (rec : RunRecord) (now : Nat) (hT : 0 < T)
    (hrec : store run_id = some rec) :
    (∀ action n, (action = "full_rerun" ∨ action = "partial_rerun") →
      rec.retry_count = some n → 0 < n → n < T →
      ∃ st, process_decision_outcome T store run_id action now =
          some (st, 0) ∧
        st run_id = some ⟨rec.pipeline_id, some (n - 1),
          some "retrying", now⟩) ∧
    (∀ action, (action = "full_rerun" ∨ action = "partial_rerun") →
      rec.retry_count = some 0 →
      ∃ st, process_decision_outcome T store run_id action now =
          some (st, 1) ∧
        st run_id = some ⟨rec.pipeline_id, some 0,
          some "failed_no_retry", now⟩) ∧
    (∃ st, process_decision_outcome T store run_id "no_rerun" now =
        some (st, 1) ∧
      st run_id = some ⟨rec.pipeline_id, some 0,
        some "failed_no_retry", now⟩) ∧
    (∃ st, process_decision_outcome T store run_id "success" now =
        some (st, 0) ∧
      st run_id = some ⟨rec.pipeline_id, some T,
        some "succeeded", now⟩) := by
  refine ⟨?_, ?_, ?_, ?_⟩
  · rintro action n (rfl | rfl) hrc hn hnT
    all_goals
      refine ⟨update_status (set_retry_count store run_id (n - 1) now)
        run_id "retrying" now, ?_, ?_⟩
    all_goals
      simp [process_decision_outcome, get_retry_count, hrec, hrc,
        ne_of_lt hnT, hn, update_status, set_retry_count, ask_user_confirmation]
  · rintro action (rfl | rfl) hrc
    all_goals
      refine ⟨update_status store run_id "failed_no_retry" now, ?_, ?_⟩
    all_goals
      simp [process_decision_outcome, get_retry_count, hrec, hrc,
        ne_of_lt hT, update_status, ask_user_confirmation]
  · refine ⟨update_status (set_retry_count store run_id 0 now)
      run_id "failed_no_retry" now, ?_, ?_⟩
    all_goals
      simp [process_decision_outcome, update_status, set_retry_count, hrec]
  · refine ⟨update_status (set_retry_count store run_id T now)
      run_id "succeeded" now, ?_, ?_⟩
    all_goals
      simp [process_decision_outcome, update_status, set_retry_count, hrec]

/-- A concrete store for the C5 witness: run `R5` has one remaining
retry out of a threshold of 2. -/
def storeC5 : ContextStore := fun s =>
  if s = "R5" then
    some { pipeline_id := some "P5", retry_count := some 1,
           status := some "unknown", last_updated := 0 }
  else none

/-- C5 witness: concrete instance of
`process_decision_outcome_transitions` decrementing a budget of 1 to 0
on a `full_rerun` decision at threshold 2. -/
theorem process_decision_outcome_transitions_witness :
    ∃ st, process_decision_outcome 2 storeC5 "R5" "full_rerun" 3 =
        some (st, 0) ∧
      st "R5" = some ⟨some "P5", some 0, some "retrying", 3⟩ :=
  (process_decision_outcome_transitions 2 storeC5 "R5"
      { pipeline_id := some "P5", retry_count := some 1,
        status := some "unknown", last_updated := 0 } 3 (by decide)
      (by decide)).1
    "full_rerun" 1 (Or.inl rfl) rfl (by decide) (by decide)

/-- Embeds the per-failure body of `MonitoringAgent.process_failures`.
`userConfirms` is the interactive `input(...) == "y"` check;
`ai_action` is the action of the decision returned by `make_decision`;
`resp` is the platform's response to the trigger request (the source's
`except` branch around `execute_decision` is unreachable here because
the embedded `execute_decision` is total — the source catches transport
errors internally).  The notification and RAG-retrieval calls do not
touch the store and are omitted. -/
def process_failure_step (T : Int) (store : ContextStore) (run_id : String)
    (failed_activity : Option String) (userConfirms : Bool)
    (ai_action : String) (resp : PlatformResponse) (now : Nat) :
    ContextStore :=
  let retries_left := orDefaultTruthy (get_retry_count T store run_id) T
  if retries_left < 1 then
    set_retry_count store run_id 0 now
  else if !userConfirms then
    set_retry_count store run_id 0 now
  else
    let store1 :=
      if ai_action ≠ "no_rerun" then
        (execute_decision store ai_action run_id failed_activity resp now).1
      else store
    set_retry_count store1 run_id (retries_left - 1) now

/-- A concrete store for the C2 failing input: run `R4` has an
exhausted budget (`retry_count = 0`) and status `failed_rerun_error`,
which is outside the terminal skip set — a state reachable after a
rejected trigger consumed the last budget unit. -/
def storeC2 : ContextStore := fun s =>
  if s = "R4" then
    some { pipeline_id := some "P4", retry_count := some 0,
           status := some "failed_rerun_error", last_updated := 0 }
  else none

/-- C2 (code bug): `retry_count` can increase without a reset to the
threshold.  Processing a failure of run `R4` with stored
`retry_count = 0` at threshold 2, the budget read
`get_retry_count(run_id) or RETRY_THRESHOLD` turns the stored `0` into
2 (Python `or` treats 0 as falsy), the run is processed, and the final
`set_retry_count(run_id, retries_left - 1)` stores 1: the budget rose
from 0 to 1 between two rerun decisions, and 1 is not the threshold. -/
theorem retry_count_increases_from_zero :
    storeC2 "R4" = some ⟨some "P4", some 0,
      some "failed_rerun_error", 0⟩ ∧
    process_failure_step 2 storeC2 "R4" none true "full_rerun"
      (.accepted none) 7 "R4" =
      some { pipeline_id := some "P4", retry_count := some 1,
             status := some "retrying", last_updated := 7 } ∧
    ((0 : Int) < 1 ∧ (1 : Int) ≠ 2) := by
  refine ⟨?_, ?_, ?_⟩ <;> decide
